import Mathlib

/-!
Verification of the image-asset pipeline of an Obsidian markdown-to-WeChat
publishing plugin.  The definitions below are a shallow embedding of the
TypeScript source:

* the content-addressed upload cache and `uploadImage` (wechat-api module,
  lines 53-298),
* the HTML image rewriting loop `uploadContentImages` (lines 304-384),
* the draft-submission error handling of `publishArticle` (lines 389-417),
* the cover-image fallback of `publishToWechat` (lines 444-500),
* the Obsidian wiki-link image conversion `convertObsidianImages`
  (src/renderer.ts, lines 44-59).

Strings are modelled as `List Char` (`Str`), raw image bytes as `List Nat`.
External collaborators (the network, the filesystem, Node's `path` module and
the MD5 digest) enter through an explicit oracle record `WxEnv`; the
process-wide mutable state (the upload cache, the number of network requests
issued so far, and the current clock reading) is threaded as `WxState`.
Scanning functions that mirror JavaScript regex loops are written with an
explicit structural fuel equal to the input length, so that every definition
evaluates by `rfl`/`decide`; each such loop consumes at least one character of
input per step, so the fuel is never exhausted on the wrapper's argument.
-/

/-- Strings of the embedded program: JavaScript strings as lists of characters. -/
abbrev Str := List Char

/-- Raw image bytes (the contents of an `ArrayBuffer`). -/
abbrev Bytes := List Nat

/-- Result of a successful media upload (`MediaUploadResponse` without the
optional error fields, which `uploadImageInternal` has already checked). -/
structure MediaResp where
  url : Str
  media_id : Str
deriving DecidableEq

/-- One entry of the upload cache (`CachedImage`): remote URL, media id and the
timestamp written when the entry was stored. -/
structure CachedImage where
  url : Str
  media_id : Str
  timestamp : Nat
deriving DecidableEq

/-- The upload cache (`uploadedImageCache : Map<string, CachedImage>`), keyed
by the MD5 digest of the raw bytes.  A JavaScript `Map` holds at most one
entry per key; the association list below preserves that invariant through
`cacheSet`/`cacheDelete`. -/
abbrev Cache := List (Str × CachedImage)

/-- `Map.get`: the entry stored under `k`, if any. -/
def cacheGet : Cache → Str → Option CachedImage
  | [], _ => none
  | (k', v) :: rest, k => if k' = k then some v else cacheGet rest k

/-- `Map.set`: overwrite the entry under `k` in place, or append a new one. -/
def cacheSet : Cache → Str → CachedImage → Cache
  | [], k, v => [(k, v)]
  | (k', v') :: rest, k, v =>
      if k' = k then (k, v) :: rest else (k', v') :: cacheSet rest k v

/-- `Map.delete`: remove the entry under `k` (keys are unique, so removing
every pair with key `k` is the same as removing the one entry). -/
def cacheDelete (m : Cache) (k : Str) : Cache :=
  m.filter (fun p => p.1 ≠ k)

/-- Environment of external collaborators: the MD5 digest (`getFileHash`), the
network (the response to the n-th media-upload request issued by the process,
as `uploadImageInternal` delivers it: `.ok` on HTTP success with zero
`errcode`, `.error` on a request error or a non-zero `errcode`), `fs.readFileSync`
(`.error` models a thrown exception), `fs.existsSync`, and Node's `path`
functions `resolve` (one- and two-argument forms), `dirname` and the
three-argument `join` used for the bundled cover paths. -/
structure WxEnv where
  hash : Bytes → Str
  net : Nat → Except Str MediaResp
  fsRead : Str → Except Str Bytes
  existsSync : Str → Bool
  resolve1 : Str → Str
  resolve2 : Str → Str → Str
  dirname : Str → Str
  join3 : Str → Str → Str → Str

/-- Process-wide mutable state: the upload cache, how many media-upload network
requests have been issued, and the current `Date.now()` reading (the model
does not advance the clock within a single call). -/
structure WxState where
  cache : Cache
  netCount : Nat
  now : Nat
deriving DecidableEq

/-- Three days in milliseconds: `3 * 24 * 60 * 60 * 1000` (`cacheMaxAge`). -/
def cacheMaxAge : Nat := 259200000

/-- The cache-miss path of `uploadImage` (lines 280-290): issue the network
upload; on success store `{url, media_id, timestamp: Date.now()}` under the
digest and return the response; on failure the rejection propagates and the
cache write never happens. -/
def uploadMiss (env : WxEnv) (st : WxState) (fileHash : Str) :
    Except Str MediaResp × WxState :=
  match env.net st.netCount with
  | .ok result =>
      (.ok result,
        { st with
            netCount := st.netCount + 1
            cache := cacheSet st.cache fileHash
              ⟨result.url, result.media_id, st.now⟩ })
  | .error e => (.error e, { st with netCount := st.netCount + 1 })

/-- `uploadImage` (lines 255-291): digest the bytes; on a cache hit younger
than `cacheMaxAge` return the cached url/media_id with no network request; on
an expired hit delete the entry first; then upload and re-populate.  The
`filename` only names the multipart part and does not influence the result. -/
def uploadImage (env : WxEnv) (st : WxState) (imageBuffer : Bytes)
    (filename : Str) : Except Str MediaResp × WxState :=
  match cacheGet st.cache (env.hash imageBuffer) with
  | some cached =>
      if st.now - cached.timestamp < cacheMaxAge then
        (.ok ⟨cached.url, cached.media_id⟩, st)
      else
        uploadMiss env
          { st with cache := cacheDelete st.cache (env.hash imageBuffer) }
          (env.hash imageBuffer)
  | none => uploadMiss env st (env.hash imageBuffer)

/-- Concrete oracle environment used to instantiate the theorems below on
closed inputs: the digest tags the bytes themselves, path functions are the
identity-style functions, the filesystem fails on `b.png` and otherwise
returns the path's character codes, and the network fails on the sixth
request and otherwise answers with a numbered URL and media id. -/
def envW : WxEnv where
  hash := fun b => b.map Char.ofNat
  net := fun n =>
    if n = 5 then .error "请求失败".data
    else .ok ⟨"http://h/".data ++ Nat.toDigits 10 n, "m".data ++ Nat.toDigits 10 n⟩
  fsRead := fun p =>
    if p = "b.png".data then .error "无法读取文件: b.png".data
    else .ok (p.map Char.toNat)
  existsSync := fun p => decide (p = "PP/assets/default-cover.jpg".data)
  resolve1 := fun s => s
  resolve2 := fun _ s => s
  dirname := fun s => s
  join3 := fun a b c => a ++ '/' :: b ++ '/' :: c

/-- A fresh process state: empty cache, no requests issued, clock at 1000. -/
def stEmpty : WxState := ⟨[], 0, 1000⟩

/-- A state holding one cache entry for the digest of `[1, 2, 3]` stamped at
time 100, observed when the clock reads 300000000 (more than three days
later). -/
def stOld : WxState :=
  ⟨[(envW.hash [1, 2, 3], ⟨"u".data, "m".data, 100⟩)], 0, 300000000⟩

/-- Quote characters accepted by the `["']` classes of the src regexes. -/
def isQuote (c : Char) : Bool := c == '"' || c == '\''

/-- The scan `while ((match = imgRegex.exec(htmlContent)) !== null)` with
`imgRegex = /<img([^>]+)>/gi` (lines 310-317), returning the captured
attribute strings in document order.  `fuel` is structural fuel; every step
consumes at least one input character, so the wrapper's `fuel = length` is
never exhausted.  A match needs a literal `<`, then `img` case-insensitively,
then at least one non-`>` character, then `>`; on failure the scan advances by
one character, exactly as the regex engine retries at the next index. -/
def scanImgF : Nat → Str → List Str
  | 0, _ => []
  | fuel + 1, '<' :: c1 :: c2 :: c3 :: rest =>
      if c1.toLower == 'i' && c2.toLower == 'm' && c3.toLower == 'g' then
        match rest.takeWhile (· != '>'), rest.dropWhile (· != '>') with
        | a :: attrs, '>' :: rest2 => (a :: attrs) :: scanImgF fuel rest2
        | _, _ => scanImgF fuel (c1 :: c2 :: c3 :: rest)
      else scanImgF fuel (c1 :: c2 :: c3 :: rest)
  | fuel + 1, _ :: cs => scanImgF fuel cs
  | _ + 1, [] => []

/-- All `<img ...>` attribute captures of the document, in order. -/
def scanImg (l : Str) : List Str := scanImgF l.length l

/-- One attempt of `attrs.match(/src=["']([^"']+)["']/i)` at the current
position: `src=` case-insensitively, an opening quote, a non-empty run of
non-quote characters (the capture), and a closing quote of either kind. -/
def extractSrcAt : Str → Option Str
  | a :: b :: c :: '=' :: q1 :: rest =>
      if a.toLower == 's' && b.toLower == 'r' && c.toLower == 'c' && isQuote q1 then
        match rest.takeWhile (fun x => !isQuote x), rest.dropWhile (fun x => !isQuote x) with
        | inner0 :: inner, _ :: _ => some (inner0 :: inner)
        | _, _ => none
      else none
  | _ => none

/-- The first match of the src regex anywhere in the attribute string
(lines 320-323); `none` models the `if (!srcMatch) continue` branch. -/
def extractSrc : Str → Option Str
  | [] => none
  | c :: cs =>
      match extractSrcAt (c :: cs) with
      | some s => some s
      | none => extractSrc cs

/-- The three skip tests of lines 325-340: already-uploaded WeChat media,
generic `http://`/`https://` URLs, and inline `data:` URIs. -/
def isSkipSrc (src : Str) : Bool :=
  "https://mmbiz.qpic.cn".data.isPrefixOf src ||
  "http://".data.isPrefixOf src ||
  "https://".data.isPrefixOf src ||
  "data:".data.isPrefixOf src

/-- `src.replace(/\//g, '\\')`. -/
def slashToBackslash (s : Str) : Str :=
  s.map fun c => if c = '/' then '\\' else c

/-- `src.match(/^[a-zA-Z]:\//)`: a Windows drive-letter prefix. -/
def isDriveSlash : Str → Bool
  | c :: ':' :: '/' :: _ => c.isAlpha
  | _ => false

/-- JavaScript truthiness of an optional string: `undefined` and the empty
string are falsy. -/
def optTruthy : Option Str → Bool
  | none => false
  | some s => !s.isEmpty

/-- The `imagePath` computation of lines 343-359: strip a `file:///` prefix
and normalize separators, or resolve a relative reference against the
directory of `basePath`, or normalize and resolve the reference itself. -/
def computeImagePath (env : WxEnv) (basePath : Option Str) (src : Str) : Str :=
  if "file:///".data.isPrefixOf src then
    env.resolve1 (slashToBackslash (src.drop 8))
  else if optTruthy basePath && !("/".data.isPrefixOf src) && !isDriveSlash src then
    env.resolve2 (env.dirname (env.resolve1 (basePath.getD []))) src
  else
    env.resolve1 (slashToBackslash src)

/-- `path.split(/[/\\]/)`: split on forward and backward slashes, keeping
empty segments as JavaScript `split` does. -/
def splitSep : Str → List Str
  | [] => [[]]
  | c :: cs =>
      if c = '/' ∨ c = '\\' then [] :: splitSep cs
      else
        match splitSep cs with
        | h :: t => (c :: h) :: t
        | [] => [[c]]

/-- `path.split(/[/\\]/).pop() || dflt`: the last path segment, or the
default when it is missing or empty (falsy). -/
def popOr (dflt : Str) (path : Str) : Str :=
  match (splitSep path).getLast? with
  | some p => if p.isEmpty then dflt else p
  | none => dflt

/-- Does the replacement regex `src=["']<escaped src>["']` (line 375, built
with every regex metacharacter of `src` escaped, hence a literal match) match
at the head of the list?  Note this regex is case-sensitive, unlike the
extraction regex. -/
def isSrcPatAt (src : Str) : Str → Bool
  | 's' :: 'r' :: 'c' :: '=' :: q1 :: rest =>
      isQuote q1 && src.isPrefixOf rest &&
        (match rest.drop src.length with
         | q2 :: _ => isQuote q2
         | [] => false)
  | _ => false

/-- `updatedHtml.replace(srcRegex, 'src="' + url + '"')` with the global
flag: every non-overlapping occurrence of `src=` + quote + `src` + quote,
anywhere in the document, becomes `src="` + url + `"`.  (Dollar escapes in
the replacement string are not modelled; the url is inserted literally.)
Structural fuel as in `scanImgF`: a match consumes `6 + src.length ≥ 6`
characters and a non-match consumes one. -/
def replaceSrcAllF (src url : Str) : Nat → Str → Str
  | 0, l => l
  | _ + 1, [] => []
  | fuel + 1, c :: cs =>
      if isSrcPatAt src (c :: cs) then
        "src=\"".data ++ url ++ '"' ::
          replaceSrcAllF src url fuel ((c :: cs).drop (6 + src.length))
      else c :: replaceSrcAllF src url fuel cs

/-- The global src substitution on a whole document. -/
def replaceSrcAll (src url html : Str) : Str :=
  replaceSrcAllF src url html.length html

/-- The body of the `while` loop of `uploadContentImages` (lines 315-381),
one iteration per captured attribute string: extract the src, skip remote and
inline references, resolve the local path, record the first local image,
read the file and upload it, and on success substitute the remote URL
globally; a read or upload failure is caught and the loop continues. -/
def processMatches (env : WxEnv) (basePath : Option Str) :
    List Str → Str → Option Str → WxState → Str × Option Str × WxState
  | [], html, first, st => (html, first, st)
  | attrs :: rest, html, first, st =>
      match extractSrc attrs with
      | none => processMatches env basePath rest html first st
      | some src =>
          if isSkipSrc src then processMatches env basePath rest html first st
          else
            let imagePath := computeImagePath env basePath src
            let first' := if optTruthy first then first else some imagePath
            match env.fsRead imagePath with
            | .error _ => processMatches env basePath rest html first' st
            | .ok imageBuffer =>
                match uploadImage env st imageBuffer (popOr "image.jpg".data imagePath) with
                | (.ok uploadResult, st') =>
                    processMatches env basePath rest
                      (replaceSrcAll src uploadResult.url html) first' st'
                | (.error _, st') => processMatches env basePath rest html first' st'

/-- `uploadContentImages` (lines 304-384): scan the original document once,
then run the loop; returns the rewritten document and the first local image
path, threading the process state. -/
def uploadContentImages (env : WxEnv) (htmlContent : Str) (basePath : Option Str)
    (st : WxState) : (Str × Option Str) × WxState :=
  let r := processMatches env basePath (scanImg htmlContent) htmlContent none st
  ((r.1, r.2.1), r.2.2)

/-- The (src, remote url) pairs of the successful uploads performed by the
loop, in processing order; the decisions are exactly those of
`processMatches`, which never consults the document being rewritten. -/
def collectSubs (env : WxEnv) (basePath : Option Str) :
    List Str → WxState → List (Str × Str)
  | [], _ => []
  | attrs :: rest, st =>
      match extractSrc attrs with
      | none => collectSubs env basePath rest st
      | some src =>
          if isSkipSrc src then collectSubs env basePath rest st
          else
            let imagePath := computeImagePath env basePath src
            match env.fsRead imagePath with
            | .error _ => collectSubs env basePath rest st
            | .ok imageBuffer =>
                match uploadImage env st imageBuffer (popOr "image.jpg".data imagePath) with
                | (.ok uploadResult, st') =>
                    (src, uploadResult.url) :: collectSubs env basePath rest st'
                | (.error _, st') => collectSubs env basePath rest st'

/-- Applying a list of global src substitutions to a document in order. -/
def applySubs (html : Str) (subs : List (Str × Str)) : Str :=
  subs.foldl (fun h p => replaceSrcAll p.1 p.2 h) html

/-- A document with three local images; under `envW` the second one fails to
read from disk. -/
def doc3 : Str :=
  "<img src=\"a.png\"><img src=\"b.png\"><img src=\"c.png\">".data

/-- A document whose plain paragraph text contains the same characters as the
one image's src attribute. -/
def doc4 : Str :=
  "<p>src=\"a.png\"</p><img src=\"a.png\">".data

/-- Upper-case hexadecimal digit, as `encodeURIComponent` produces. -/
def hexDigit (n : Nat) : Char :=
  if n < 10 then Char.ofNat (48 + n) else Char.ofNat (55 + n)

/-- A percent-encoded byte, `%XY`. -/
def percentByte (b : Nat) : Str :=
  ['%', hexDigit (b / 16), hexDigit (b % 16)]

/-- UTF-8 encoding of one Unicode scalar value (JavaScript strings percent-
encode the UTF-8 bytes of the character). -/
def utf8Bytes (c : Char) : List Nat :=
  if c.toNat < 128 then [c.toNat]
  else if c.toNat < 2048 then [192 + c.toNat / 64, 128 + c.toNat % 64]
  else if c.toNat < 65536 then
    [224 + c.toNat / 4096, 128 + c.toNat / 64 % 64, 128 + c.toNat % 64]
  else
    [240 + c.toNat / 262144, 128 + c.toNat / 4096 % 64,
      128 + c.toNat / 64 % 64, 128 + c.toNat % 64]

/-- The characters `encodeURIComponent` leaves unescaped:
`A-Z a-z 0-9 - _ . ! ~ * ' ( )`. -/
def uriUnreservedChar (c : Char) : Bool :=
  c.isAlpha || c.isDigit || c == '-' || c == '_' || c == '.' || c == '!' ||
    c == '~' || c == '*' || c == '\'' || c == '(' || c == ')'

/-- JavaScript's `encodeURIComponent` on a single character. -/
def encodeURIComponentChar (c : Char) : Str :=
  if uriUnreservedChar c then [c] else ((utf8Bytes c).map percentByte).flatten

/-- The character class `[a-zA-Z0-9:\/\\\-_.]` preserved by the renderer's
replacement regex (renderer.ts line 50): its complement is what gets passed
to the replacement callback. -/
def allowedClassChar (c : Char) : Bool :=
  c.isAlpha || c.isDigit || c == ':' || c == '/' || c == '\\' || c == '-' ||
    c == '_' || c == '.'

/-- `imagePath.match(/^[a-zA-Z]:/)`: a leading drive-letter prefix. -/
def startsWithDrive : Str → Bool
  | c :: ':' :: _ => c.isAlpha
  | _ => false

/-- The replacement callback of renderer.ts lines 50-56, applied to each
character outside `allowedClassChar`.  The `':'` branch mirrors the source
but is unreachable: `':'` belongs to the preserved class, so the regex never
hands a colon to the callback. -/
def encodePathChar (imagePath : Str) (c : Char) : Str :=
  if allowedClassChar c then [c]
  else if c == ':' && startsWithDrive imagePath then [':']
  else encodeURIComponentChar c

/-- `imagePath.replace(/[^a-zA-Z0-9:\/\\\-_.]/g, callback)`: every character
outside the class is replaced by its callback result, all others kept. -/
def encodePath (imagePath : Str) : Str :=
  (imagePath.map (encodePathChar imagePath)).flatten

/-- JavaScript `String.prototype.trim` (ASCII whitespace suffices here). -/
def trimStr (s : Str) : Str :=
  ((s.dropWhile Char.isWhitespace).reverse.dropWhile Char.isWhitespace).reverse

/-- A match of `/!\[\[([^\]]+)\]\]/` at the head of the list: `![[`, then a
non-empty run of non-`]` characters (the capture), then `]]`; returns the
capture and the remainder after the match. -/
def wikiAt : Str → Option (Str × Str)
  | '!' :: '[' :: '[' :: rest =>
      match rest.takeWhile (· != ']'), rest.dropWhile (· != ']') with
      | c :: cs, ']' :: ']' :: rest2 => some (c :: cs, rest2)
      | _, _ => none
  | _ => none

/-- `markdown.replace(/!\[\[([^\]]+)\]\]/g, ...)` (renderer.ts lines 44-59):
each wiki-image link is replaced by `![](` + the encoded path — everything
before the first `|`, trimmed, with the replacement callback applied — `+ )`;
other characters are copied.  Structural fuel as in `scanImgF`. -/
def convF : Nat → Str → Str
  | 0, l => l
  | _ + 1, [] => []
  | fuel + 1, c :: cs =>
      match wikiAt (c :: cs) with
      | some (content, rest2) =>
          "![](".data ++ encodePath (trimStr (content.takeWhile (· != '|'))) ++
            ')' :: convF fuel rest2
      | none => c :: convF fuel cs

/-- The wiki-image conversion on a whole markdown document. -/
def convertObsidianImages (markdown : Str) : Str :=
  convF markdown.length markdown

/-- Follows the words of the specification, not the source, for comparison:
percent-encode EVERY character outside `[A-Za-z0-9:/\-_.]` (the leading
drive-letter colon exception is vacuous because `':'` is inside the class). -/
def specPercentEncodePath (imagePath : Str) : Str :=
  (imagePath.map fun c =>
    if allowedClassChar c then [c] else ((utf8Bytes c).map percentByte).flatten).flatten

/-- The parsed JSON response of the draft-submission call
(`ArticlePublishResponse`): `media_id` plus the optional application error
code and message. -/
structure ArticlePublishResponse where
  media_id : Str
  errcode : Option Int
  errmsg : Option Str
deriving DecidableEq

/-- The message of the error thrown on a non-zero application error code
(line 413): the template `发布文章失败: ` + errcode + ` - ` + errmsg, where an
absent errmsg interpolates as `undefined`. -/
def submitErrMsg (code : Int) (errmsg : Option Str) : Str :=
  "发布文章失败: ".data ++ (toString code).data ++ " - ".data ++
    (match errmsg with
     | some m => m
     | none => "undefined".data)

/-- The response handling of `publishArticle` (lines 410-416): the guard
`data.errcode && data.errcode !== 0` throws exactly when an error code is
present and non-zero (`0` is falsy, so it passes), carrying the code and the
message; otherwise the response is returned.  The posted payload (title,
content, thumb media id, author and digest defaulted to the empty string)
does not influence this check; the response enters as the value the awaited
`httpPost` produced. -/
def publishArticle (resp : ArticlePublishResponse) :
    Except Str ArticlePublishResponse :=
  match resp.errcode with
  | some code =>
      if code ≠ 0 then .error (submitErrMsg code resp.errmsg) else .ok resp
  | none => .ok resp

/-- The default-cover candidate loop of `publishToWechat` (lines 476-488):
for each path in order, if it exists try to read it — success selects it and
its basename (`|| "default-cover.jpg"`), a read failure or a missing file
falls through to the next candidate. -/
def tryCoverPaths (env : WxEnv) : List Str → Option (Bytes × Option Str)
  | [] => none
  | p :: ps =>
      if env.existsSync p then
        match env.fsRead p with
        | .ok bytes => some (bytes, some (popOr "default-cover.jpg".data p))
        | .error _ => tryCoverPaths env ps
      else tryCoverPaths env ps

/-- The cover determination of `publishToWechat` (lines 444-500): explicit
caller-supplied bytes win; otherwise the first local image of the rewrite is
read from disk (a read failure is logged and falls through); otherwise the
configured default path (when truthy, resolved) followed by the two bundled
default paths are tried in order.  `none` models the thrown missing-cover
error. -/
def resolveCover (env : WxEnv) (coverImageBuffer : Option Bytes)
    (coverFilename : Option Str) (firstLocalImagePath : Option Str)
    (defaultCoverPath : Option Str) (pluginPath : Str) :
    Option (Bytes × Option Str) :=
  let step1 : Option Bytes × Option Str :=
    match coverImageBuffer with
    | some b => (some b, coverFilename)
    | none =>
        if optTruthy firstLocalImagePath then
          match env.fsRead (firstLocalImagePath.getD []) with
          | .ok bytes =>
              (some bytes,
                some (popOr "cover.jpg".data (firstLocalImagePath.getD [])))
          | .error _ => (none, coverFilename)
        else (none, coverFilename)
  match step1 with
  | (some b, fn) => some (b, fn)
  | (none, _) =>
      tryCoverPaths env
        ((if optTruthy defaultCoverPath
          then [env.resolve1 (defaultCoverPath.getD [])] else []) ++
          [env.join3 pluginPath "assets".data "default-cover.jpg".data,
            env.join3 pluginPath "assets".data "default-cover.png".data])

/-- Reading back the entry just stored by `cacheSet`. -/
theorem cacheGet_cacheSet_same (m : Cache) (k : Str) (v : CachedImage) :
    cacheGet (cacheSet m k v) k = some v := by
  induction m with
  | nil => simp [cacheSet, cacheGet]
  | cons p rest ih =>
      obtain ⟨k', v'⟩ := p
      by_cases h : k' = k <;> simp [cacheSet, cacheGet, h, ih]

/-- After `cacheDelete` the digest is absent. -/
theorem cacheGet_cacheDelete_same (m : Cache) (k : Str) :
    cacheGet (cacheDelete m k) k = none := by
  induction m with
  | nil => simp [cacheDelete, cacheGet]
  | cons p rest ih =>
      obtain ⟨k', v'⟩ := p
      by_cases h : k' = k <;>
        simp_all [cacheDelete, cacheGet, List.filter_cons]

/-- Whenever `uploadImage` returns successfully, the cache afterwards holds an
entry for the digest whose url and media id are the returned ones. -/
theorem uploadImage_ok_cached (env : WxEnv) (st : WxState) (b : Bytes)
    (fn : Str) (resp : MediaResp)
    (h : (uploadImage env st b fn).1 = .ok resp) :
    ∃ c, cacheGet (uploadImage env st b fn).2.cache (env.hash b) = some c ∧
      c.url = resp.url ∧ c.media_id = resp.media_id := by
  cases hg : cacheGet st.cache (env.hash b) with
  | some cached =>
      by_cases hfresh : st.now - cached.timestamp < cacheMaxAge
      · simp only [uploadImage, hg, if_pos hfresh] at h ⊢
        simp only [Except.ok.injEq] at h
        exact ⟨cached, rfl, by rw [← h], by rw [← h]⟩
      · simp only [uploadImage, hg, if_neg hfresh] at h ⊢
        cases hn : env.net ({ st with
            cache := cacheDelete st.cache (env.hash b) } : WxState).netCount with
        | ok r =>
            simp only [uploadMiss, hn] at h ⊢
            simp only [Except.ok.injEq] at h
            subst h
            exact ⟨_, by simpa using cacheGet_cacheSet_same _ _ _, rfl, rfl⟩
        | error e => simp only [uploadMiss, hn] at h; cases h
  | none =>
      simp only [uploadImage, hg] at h ⊢
      cases hn : env.net st.netCount with
      | ok r =>
          simp only [uploadMiss, hn] at h ⊢
          simp only [Except.ok.injEq] at h
          subst h
          exact ⟨_, by simpa using cacheGet_cacheSet_same _ _ _, rfl, rfl⟩
      | error e => simp only [uploadMiss, hn] at h; cases h

/-- C9: on a non-expired cache hit `uploadImage` returns the cached url and
media id and leaves the whole process state — cache, request count and clock —
completely unchanged; in particular the stored timestamp is not refreshed by
the read, so the TTL keeps running from the original upload time. -/
theorem uploadImage_hit_frame (env : WxEnv) (st : WxState) (b : Bytes)
    (fn : Str) (c : CachedImage)
    (hget : cacheGet st.cache (env.hash b) = some c)
    (hfresh : st.now - c.timestamp < cacheMaxAge) :
    uploadImage env st b fn = (.ok ⟨c.url, c.media_id⟩, st) := by
  simp only [uploadImage, hget, if_pos hfresh]

/-- Witness for C9: a concrete fresh hit returns the cached record and the
state unchanged. -/
theorem uploadImage_hit_frame_witness :
    uploadImage envW ⟨[(envW.hash [1, 2, 3], ⟨"u".data, "m".data, 100⟩)], 0, 200⟩
        [1, 2, 3] [] =
      (.ok ⟨"u".data, "m".data⟩,
        ⟨[(envW.hash [1, 2, 3], ⟨"u".data, "m".data, 100⟩)], 0, 200⟩) :=
  uploadImage_hit_frame envW
    ⟨[(envW.hash [1, 2, 3], ⟨"u".data, "m".data, 100⟩)], 0, 200⟩
    [1, 2, 3] [] ⟨"u".data, "m".data, 100⟩ rfl (by decide)

/-- C1: if a byte payload is uploaded and the call succeeds, then a second
`uploadImage` call for the same bytes — under any filename — at any later
clock reading still inside the TTL window of the cache entry returns the very
same url and media id and performs zero network requests: the state (and so
the request counter and the cache) is returned unchanged. -/
theorem uploadImage_second_call_cached (env : WxEnv) (st : WxState)
    (b : Bytes) (fn1 fn2 : Str) (t2 : Nat) (resp : MediaResp) (c : CachedImage)
    (h1 : (uploadImage env st b fn1).1 = .ok resp)
    (h2 : cacheGet (uploadImage env st b fn1).2.cache (env.hash b) = some c)
    (h3 : t2 - c.timestamp < cacheMaxAge) :
    uploadImage env { (uploadImage env st b fn1).2 with now := t2 } b fn2 =
      (.ok resp, { (uploadImage env st b fn1).2 with now := t2 }) := by
  obtain ⟨c', hc', hu, hm⟩ := uploadImage_ok_cached env st b fn1 resp h1
  rw [hc'] at h2
  injection h2 with h2
  subst h2
  have hresp : (⟨c'.url, c'.media_id⟩ : MediaResp) = resp := by
    cases resp
    cases c'
    simp_all
  generalize (uploadImage env st b fn1).2 = st1 at hc' ⊢
  have hget2 : cacheGet ({ st1 with now := t2 } : WxState).cache
      (env.hash b) = some c' := hc'
  simp only [uploadImage, hget2]
  rw [if_pos (by simpa using h3), hresp]

/-- Witness for C1: uploading `[1, 2, 3]` into an empty cache and calling
again 1000 ms later returns the first call's response with the state
untouched. -/
theorem uploadImage_second_call_cached_witness :
    uploadImage envW { (uploadImage envW stEmpty [1, 2, 3] []).2 with now := 2000 }
        [1, 2, 3] "again.png".data =
      (.ok ⟨"http://h/0".data, "m0".data⟩,
        { (uploadImage envW stEmpty [1, 2, 3] []).2 with now := 2000 }) :=
  uploadImage_second_call_cached envW stEmpty [1, 2, 3] [] "again.png".data 2000
    ⟨"http://h/0".data, "m0".data⟩
    ⟨"http://h/0".data, "m0".data, 1000⟩ rfl rfl (by decide)

/-- C2: when the cache entry for the digest is at least `cacheMaxAge`
(259200000 ms) old at lookup time, `uploadImage` treats it as absent: it
issues a new network upload (the request counter increases by one) and, when
that upload succeeds, overwrites the cache entry for the digest with the fresh
url, media id and the current — strictly newer — timestamp. -/
theorem uploadImage_expired_reuploads (env : WxEnv) (st : WxState) (b : Bytes)
    (fn : Str) (c : CachedImage) (resp : MediaResp)
    (hget : cacheGet st.cache (env.hash b) = some c)
    (hexp : ¬ st.now - c.timestamp < cacheMaxAge)
    (hnet : env.net st.netCount = .ok resp) :
    uploadImage env st b fn =
      (.ok resp,
        { st with
            cache := cacheSet (cacheDelete st.cache (env.hash b)) (env.hash b)
              ⟨resp.url, resp.media_id, st.now⟩
            netCount := st.netCount + 1 }) ∧
    cacheGet (uploadImage env st b fn).2.cache (env.hash b) =
      some ⟨resp.url, resp.media_id, st.now⟩ ∧
    c.timestamp < st.now := by
  have hmain : uploadImage env st b fn =
      (.ok resp,
        { st with
            cache := cacheSet (cacheDelete st.cache (env.hash b)) (env.hash b)
              ⟨resp.url, resp.media_id, st.now⟩
            netCount := st.netCount + 1 }) := by
    simp only [uploadImage, hget, if_neg hexp, uploadMiss, hnet]
  refine ⟨hmain, ?_, ?_⟩
  · rw [hmain]
    exact cacheGet_cacheSet_same _ _ _
  · simp only [cacheMaxAge] at hexp
    omega

/-- Witness for C2: re-uploading `[1, 2, 3]` over an entry stamped at time 100
when the clock reads 300000000 stores the new response with the new
timestamp. -/
theorem uploadImage_expired_reuploads_witness :
    cacheGet (uploadImage envW stOld [1, 2, 3] []).2.cache
        (envW.hash [1, 2, 3]) =
      some ⟨"http://h/0".data, "m0".data, 300000000⟩ :=
  (uploadImage_expired_reuploads envW stOld [1, 2, 3] []
    ⟨"u".data, "m".data, 100⟩ ⟨"http://h/0".data, "m0".data⟩
    rfl (by decide) rfl).2.1

/-- C10: on an expired hit the entry is deleted before the new upload is
issued; if that upload then fails, the error propagates with the request
counter advanced and the cache left with no entry at all for the digest — the
eviction is not rolled back. -/
theorem uploadImage_expired_delete_no_rollback (env : WxEnv) (st : WxState)
    (b : Bytes) (fn : Str) (c : CachedImage) (e : Str)
    (hget : cacheGet st.cache (env.hash b) = some c)
    (hexp : ¬ st.now - c.timestamp < cacheMaxAge)
    (hnet : env.net st.netCount = .error e) :
    uploadImage env st b fn =
      (.error e,
        { st with
            cache := cacheDelete st.cache (env.hash b)
            netCount := st.netCount + 1 }) ∧
    cacheGet (uploadImage env st b fn).2.cache (env.hash b) = none := by
  have hmain : uploadImage env st b fn =
      (.error e,
        { st with
            cache := cacheDelete st.cache (env.hash b)
            netCount := st.netCount + 1 }) := by
    simp only [uploadImage, hget, if_neg hexp, uploadMiss, hnet]
  refine ⟨hmain, ?_⟩
  rw [hmain]
  exact cacheGet_cacheDelete_same _ _

/-- Witness for C10: with the network refusing the sixth request (index 5), an
expired entry is evicted and not restored when the re-upload fails. -/
theorem uploadImage_expired_delete_no_rollback_witness :
    cacheGet
        (uploadImage envW
          ⟨[(envW.hash [1, 2, 3], ⟨"u".data, "m".data, 100⟩)], 5, 300000000⟩
          [1, 2, 3] []).2.cache
        (envW.hash [1, 2, 3]) = none :=
  (uploadImage_expired_delete_no_rollback envW
    ⟨[(envW.hash [1, 2, 3], ⟨"u".data, "m".data, 100⟩)], 5, 300000000⟩
    [1, 2, 3] [] ⟨"u".data, "m".data, 100⟩ "请求失败".data
    rfl (by decide) rfl).2

/-- C3: a filesystem read failure or an upload error for a single image is
caught inside the loop: the document passes to the next iteration unchanged,
the remaining images are still processed, and no error escapes (the loop is
total by construction).  The first conjunct handles a read failure, the
second an upload error (whose state change — the request counter, and for an
expired cache entry the eviction — is kept); the third conjunct is the
claim's concrete instance: of three local images whose second fails to read,
the first and third references are replaced and the second is unchanged. -/
theorem uploadContentImages_failure_isolated :
    (∀ (env : WxEnv) (bp : Option Str) (attrs src : Str) (rest : List Str)
        (html : Str) (first : Option Str) (st : WxState) (e : Str),
      extractSrc attrs = some src →
      isSkipSrc src = false →
      env.fsRead (computeImagePath env bp src) = .error e →
      processMatches env bp (attrs :: rest) html first st =
        processMatches env bp rest html
          (if optTruthy first then first else some (computeImagePath env bp src)) st) ∧
    (∀ (env : WxEnv) (bp : Option Str) (attrs src : Str) (rest : List Str)
        (html : Str) (first : Option Str) (st : WxState) (buf : Bytes)
        (e : Str) (st' : WxState),
      extractSrc attrs = some src →
      isSkipSrc src = false →
      env.fsRead (computeImagePath env bp src) = .ok buf →
      uploadImage env st buf (popOr "image.jpg".data (computeImagePath env bp src)) =
        (.error e, st') →
      processMatches env bp (attrs :: rest) html first st =
        processMatches env bp rest html
          (if optTruthy first then first else some (computeImagePath env bp src)) st') ∧
    (uploadContentImages envW doc3 none stEmpty).1 =
      ("<img src=\"http://h/0\"><img src=\"b.png\"><img src=\"http://h/1\">".data,
        some "a.png".data) := by
  refine ⟨?_, ?_, rfl⟩
  · intro env bp attrs src rest html first st e h1 h2 h3
    simp only [processMatches, h1, h2, h3, Bool.false_eq_true, if_false]
  · intro env bp attrs src rest html first st buf e st' h1 h2 h3 h4
    simp only [processMatches, h1, h2, h3, h4, Bool.false_eq_true, if_false]

/-- Witness for C3: the failing middle image of `doc3`, processed on its own,
leaves the document unchanged, records the image as first local image, and
hands the untouched state to the rest of the loop. -/
theorem uploadContentImages_failure_isolated_witness :
    processMatches envW none [" src=\"b.png\"".data] doc3 none stEmpty =
      processMatches envW none [] doc3 (some "b.png".data) stEmpty :=
  uploadContentImages_failure_isolated.1 envW none (" src=\"b.png\"".data)
    ("b.png".data) [] doc3 none stEmpty ("无法读取文件: b.png".data) rfl rfl rfl

/-- C7: a reference whose src already points at the WeChat media domain, is a
generic `http://` or `https://` URL, or is an inline `data:` URI, is
classified as a skip: its loop iteration is the identity — the document, the
first-local-image record and the whole state (so: no upload request, no cache
change; the result does not depend on the filesystem at all) pass through
unchanged. -/
theorem processMatches_skip_step (env : WxEnv) (bp : Option Str)
    (attrs src : Str) (rest : List Str) (html : Str) (first : Option Str)
    (st : WxState)
    (h1 : extractSrc attrs = some src)
    (h2 : "https://mmbiz.qpic.cn".data.isPrefixOf src = true ∨
          "http://".data.isPrefixOf src = true ∨
          "https://".data.isPrefixOf src = true ∨
          "data:".data.isPrefixOf src = true) :
    processMatches env bp (attrs :: rest) html first st =
      processMatches env bp rest html first st := by
  have hskip : isSkipSrc src = true := by
    rcases h2 with h | h | h | h <;> simp [isSkipSrc, h]
  simp only [processMatches, h1, hskip, if_true]

/-- Witness for C7: a remote `https://` image is left alone byte-for-byte
with the state untouched. -/
theorem processMatches_skip_step_witness :
    processMatches envW none [" src=\"https://x/y.png\"".data]
        "<img src=\"https://x/y.png\">".data none stEmpty =
      processMatches envW none [] "<img src=\"https://x/y.png\">".data none stEmpty :=
  processMatches_skip_step envW none (" src=\"https://x/y.png\"".data)
    ("https://x/y.png".data) [] "<img src=\"https://x/y.png\">".data none stEmpty
    rfl (Or.inr (Or.inr (Or.inl rfl)))

/-- C4 counterexample: rewriting `doc4` also rewrites the paragraph text
`src="a.png"`, which is not an image reference — the claimed output, in which
only the img tag's src attribute value changes and every other byte is
preserved, differs from the actual output. -/
theorem uploadContentImages_touches_nonimage_text :
    (uploadContentImages envW doc4 none stEmpty).1.1 =
      "<p>src=\"http://h/0\"</p><img src=\"http://h/0\">".data ∧
    (uploadContentImages envW doc4 none stEmpty).1.1 ≠
      "<p>src=\"a.png\"</p><img src=\"http://h/0\">".data :=
  ⟨rfl, by decide⟩

/-- The loop never consults the document being rewritten: its output is the
input with the collected global substitutions applied in processing order. -/
theorem processMatches_applySubs (env : WxEnv) (bp : Option Str)
    (ms : List Str) (html : Str) (first : Option Str) (st : WxState) :
    (processMatches env bp ms html first st).1 =
      applySubs html (collectSubs env bp ms st) := by
  induction ms generalizing html first st with
  | nil => simp [processMatches, collectSubs, applySubs]
  | cons attrs rest ih =>
      cases h1 : extractSrc attrs with
      | none => simp only [processMatches, collectSubs, h1]; exact ih ..
      | some src =>
          by_cases h2 : isSkipSrc src
          · simp only [processMatches, collectSubs, h1, h2, if_true]
            exact ih ..
          · simp only [processMatches, collectSubs, h1, h2, Bool.false_eq_true, if_false]
            cases h3 : env.fsRead (computeImagePath env bp src) with
            | error e => simp only [h3]; exact ih ..
            | ok buf =>
                simp only [h3]
                rcases h4 : uploadImage env st buf
                    (popOr "image.jpg".data (computeImagePath env bp src)) with ⟨r, st'⟩
                cases r with
                | ok uploadResult =>
                    simp only [h4, applySubs, List.foldl_cons]
                    exact ih ..
                | error e => simp only [h4]; exact ih ..

/-- C4 amended: the only changes `uploadContentImages` makes to the document
are the collected textual substitutions — for each successfully uploaded
source string s with remote url u, every occurrence of `src=` + quote + s +
quote anywhere in the document (not only inside image tags) is replaced by
`src="u"`, in processing order; bytes not consumed by such a substitution are
preserved. -/
theorem uploadContentImages_global_subst (env : WxEnv) (htmlContent : Str)
    (bp : Option Str) (st : WxState) :
    (uploadContentImages env htmlContent bp st).1.1 =
      applySubs htmlContent (collectSubs env bp (scanImg htmlContent) st) :=
  processMatches_applySubs env bp (scanImg htmlContent) htmlContent none st

/-- Taking up to the first `]` of `content ++ ']' :: rest` yields `content`
when `content` contains no `]`. -/
theorem takeWhile_append_rbracket (content rest : Str) (h : ']' ∉ content) :
    (content ++ ']' :: rest).takeWhile (· != ']') = content := by
  induction content with
  | nil => simp [List.takeWhile]
  | cons c cs ih =>
      have hc : c ≠ ']' := fun hc => h (hc ▸ List.mem_cons_self c cs)
      have hcs : ']' ∉ cs := fun hm => h (List.mem_cons_of_mem c hm)
      simp_all [List.takeWhile_cons]

/-- Dropping up to the first `]` of `content ++ ']' :: rest` leaves
`']' :: rest` when `content` contains no `]`. -/
theorem dropWhile_append_rbracket (content rest : Str) (h : ']' ∉ content) :
    (content ++ ']' :: rest).dropWhile (· != ']') = ']' :: rest := by
  induction content with
  | nil => simp [List.dropWhile]
  | cons c cs ih =>
      have hc : c ≠ ']' := fun hc => h (hc ▸ List.mem_cons_self c cs)
      have hcs : ']' ∉ cs := fun hm => h (List.mem_cons_of_mem c hm)
      simp_all [List.dropWhile_cons]

/-- The conversion of the empty document is empty, for any fuel. -/
theorem convF_nil (fuel : Nat) : convF fuel [] = [] := by
  cases fuel <;> rfl

/-- The wiki regex matches `![[` + content + `]]` exactly when the content is
a non-empty run of non-`]` characters. -/
theorem wikiAt_wiki (content rest : Str) (h0 : content ≠ [])
    (h1 : ']' ∉ content) :
    wikiAt ('!' :: '[' :: '[' :: (content ++ ']' :: ']' :: rest)) =
      some (content, rest) := by
  obtain ⟨c0, cs0, rfl⟩ := List.exists_cons_of_ne_nil h0
  simp only [wikiAt]
  rw [takeWhile_append_rbracket _ _ h1, dropWhile_append_rbracket _ _ h1]
  rfl

/-- C6 counterexample: `(` and `)` lie outside `[A-Za-z0-9:/\-_.]`, so the
claim mandates percent-encoding them, but the replacement callback calls
`encodeURIComponent`, which leaves them (and `! ~ * '`) unescaped: on
`![[a(1).png]]` the code's output keeps the parentheses literal while the
claimed encoding would produce `a%281%29.png`. -/
theorem convertObsidianImages_paren_not_encoded :
    convertObsidianImages "![[a(1).png]]".data = "![](a(1).png)".data ∧
    specPercentEncodePath "a(1).png".data = "a%281%29.png".data ∧
    convertObsidianImages "![[a(1).png]]".data ≠
      "![](".data ++ specPercentEncodePath "a(1).png".data ++ [')'] :=
  ⟨rfl, rfl, by decide⟩

/-- C6 amended: resolution strips everything after the first `|`, trims
whitespace, and applies `encodeURIComponent` character-wise to every
character outside `[A-Za-z0-9:/\-_.]` — so the characters that
`encodeURIComponent` leaves unescaped (`! ~ * ' ( )`) stay literal, and `:`
(inside the preserved class) is never encoded anywhere, which makes the
leading-drive-colon exception vacuous.  In particular
`![[Pasted image 2026.png]]` resolves to `Pasted%20image%202026.png` with
the extension untouched. -/
theorem convertObsidianImages_wiki_link :
    (∀ content : Str, content ≠ [] → ']' ∉ content →
      convertObsidianImages ('!' :: '[' :: '[' :: (content ++ [']', ']'])) =
        "![](".data ++ encodePath (trimStr (content.takeWhile (· != '|'))) ++ [')']) ∧
    convertObsidianImages "![[Pasted image 2026.png]]".data =
      "![](Pasted%20image%202026.png)".data := by
  constructor
  · intro content h0 h1
    show convF (('!' :: '[' :: '[' :: (content ++ [']', ']'])).length) _ = _
    have hlen : ('!' :: '[' :: '[' :: (content ++ [']', ']'])).length =
        (content.length + 4) + 1 := by
      simp [List.length_append]
    rw [hlen]
    simp only [convF]
    rw [wikiAt_wiki content [] h0 h1]
    simp [convF_nil]
  · rfl

/-- Witness for C6 (amended): a content with a space encodes the space and
keeps the rest. -/
theorem convertObsidianImages_wiki_link_witness :
    convertObsidianImages ('!' :: '[' :: '[' :: ("a b.png".data ++ [']', ']'])) =
      "![](".data ++ encodePath (trimStr ("a b.png".data.takeWhile (· != '|'))) ++ [')'] :=
  convertObsidianImages_wiki_link.1 "a b.png".data (by decide) (by decide)

/-- C5: when the submission response carries a non-zero application error
code, `publishArticle` fails, and the failure is exactly the submit error
built from that code and that message — it is fully determined by the two
response fields, never a different or information-dropping failure; the
second conjunct shows that error codes of zero (falsy in the guard) do not
fail. -/
theorem publishArticle_nonzero_errcode (resp : ArticlePublishResponse)
    (code : Int) (h1 : resp.errcode = some code) (h2 : code ≠ 0) :
    publishArticle resp = .error (submitErrMsg code resp.errmsg) ∧
    ∀ resp' : ArticlePublishResponse, resp'.errcode = some 0 →
      publishArticle resp' = .ok resp' := by
  constructor
  · simp [publishArticle, h1, h2]
  · intro resp' h
    simp [publishArticle, h]

/-- Witness for C5: error code 40164 with message `invalid ip` yields the
submit error carrying exactly that code and message. -/
theorem publishArticle_nonzero_errcode_witness :
    publishArticle ⟨"mid".data, some 40164, some "invalid ip".data⟩ =
      .error (submitErrMsg 40164 (some "invalid ip".data)) :=
  (publishArticle_nonzero_errcode
    ⟨"mid".data, some 40164, some "invalid ip".data⟩ 40164 rfl (by decide)).1

/-- C8: cover resolution applies the ordered fallback and the first satisfied
candidate wins, at every level of the order.  Conjunct 1: explicit
caller-supplied bytes always win, untouched, with the caller's filename,
whatever the lower-priority candidates hold.  Conjunct 2: with no explicit
cover, a readable first local image wins — for every configured default and
every plugin path, so in particular over existing configured and bundled
defaults.  Conjunct 3: with no explicit cover and no local image, an
existing, readable configured default path wins — for every plugin path, so
in particular over existing bundled defaults.  Conjunct 4 (the claim's
scenario): with no explicit cover, no local image and a configured default
that does not exist, the first bundled default that exists and reads
successfully is returned — for every state of the second bundled path, so
the listed order is respected.  Conjunct 5: when the configured default and
the first bundled path are both absent, the second bundled path wins. -/
theorem resolveCover_fallback_order :
    (∀ (env : WxEnv) (b : Bytes) (fn : Option Str) (flp dcp : Option Str)
        (pp : Str), resolveCover env (some b) fn flp dcp pp = some (b, fn)) ∧
    (∀ (env : WxEnv) (fn : Option Str) (flp : Str) (dcp : Option Str)
        (pp : Str) (bytes : Bytes),
      flp.isEmpty = false →
      env.fsRead flp = .ok bytes →
      resolveCover env none fn (some flp) dcp pp =
        some (bytes, some (popOr "cover.jpg".data flp))) ∧
    (∀ (env : WxEnv) (fn : Option Str) (d : Str) (pp : Str) (bytes : Bytes),
      d.isEmpty = false →
      env.existsSync (env.resolve1 d) = true →
      env.fsRead (env.resolve1 d) = .ok bytes →
      resolveCover env none fn none (some d) pp =
        some (bytes, some (popOr "default-cover.jpg".data (env.resolve1 d)))) ∧
    (∀ (env : WxEnv) (fn : Option Str) (d : Str) (pp : Str) (bytes : Bytes),
      d.isEmpty = false →
      env.existsSync (env.resolve1 d) = false →
      env.existsSync (env.join3 pp "assets".data "default-cover.jpg".data) = true →
      env.fsRead (env.join3 pp "assets".data "default-cover.jpg".data) = .ok bytes →
      resolveCover env none fn none (some d) pp =
        some (bytes,
          some (popOr "default-cover.jpg".data
            (env.join3 pp "assets".data "default-cover.jpg".data)))) ∧
    (∀ (env : WxEnv) (fn : Option Str) (d : Str) (pp : Str) (bytes : Bytes),
      d.isEmpty = false →
      env.existsSync (env.resolve1 d) = false →
      env.existsSync (env.join3 pp "assets".data "default-cover.jpg".data) = false →
      env.existsSync (env.join3 pp "assets".data "default-cover.png".data) = true →
      env.fsRead (env.join3 pp "assets".data "default-cover.png".data) = .ok bytes →
      resolveCover env none fn none (some d) pp =
        some (bytes,
          some (popOr "default-cover.jpg".data
            (env.join3 pp "assets".data "default-cover.png".data)))) := by
  refine ⟨?_, ?_, ?_, ?_, ?_⟩
  · intro env b fn flp dcp pp
    simp [resolveCover]
  · intro env fn flp dcp pp bytes hflp h1
    simp [resolveCover, optTruthy, hflp, h1]
  · intro env fn d pp bytes hd h1 h2
    simp [resolveCover, optTruthy, hd, tryCoverPaths, h1, h2]
  · intro env fn d pp bytes hd h1 h2 h3
    simp [resolveCover, optTruthy, hd, tryCoverPaths, h1, h2, h3]
  · intro env fn d pp bytes hd h1 h2 h3 h4
    simp [resolveCover, optTruthy, hd, tryCoverPaths, h1, h2, h3, h4]

/-- Witness for C8: under `envW` only `PP/assets/default-cover.jpg` exists;
with no explicit cover, no local image and a missing configured path
`cfg.png`, resolution returns that bundled default's bytes and basename. -/
theorem resolveCover_fallback_order_witness :
    resolveCover envW none none none (some "cfg.png".data) "PP".data =
      some ("PP/assets/default-cover.jpg".data.map Char.toNat,
        some "default-cover.jpg".data) :=
  resolveCover_fallback_order.2.2.2.1 envW none "cfg.png".data "PP".data
    ("PP/assets/default-cover.jpg".data.map Char.toNat) rfl rfl rfl rfl
